import Mathlib

/-!
Shallow embedding of src/journal.py (the fullest revision of the
pyramid_learning_journal application) together with the parts of its
external collaborators that the handlers observe: the PostgreSQL engine
executing the two SQL statements DB_SCHEMA admits, and the pyramid
auth-ticket session layer reached through remember / forget.

Conventions: timestamps are naturals (datetime values compare like their
UTC instants), request parameters that Python reads with
request.params.get(key, None) are Option String, and a raised Python
exception becomes an explicit error value.
-/

namespace PyramidLearningJournal

/-- One row of the entries table of DB_SCHEMA:
id serial PRIMARY KEY, title VARCHAR (127) NOT NULL, text TEXT NOT NULL,
created TIMESTAMP NOT NULL. -/
structure Entry where
  id : Nat
  title : String
  text : String
  created : Nat
deriving DecidableEq, Repr

/-- One dictionary produced by read_entries: dict(zip(keys, row)) with
keys = (id, title, text, created), the four columns of SELECT_ENTRIES. -/
structure Row where
  id : Nat
  title : String
  text : String
  created : Nat
deriving DecidableEq, Repr

/-- State of one psycopg2 connection to the entries database (the external
engine the spec treats as a black box): the durable table, the inserts of
the current transaction not yet committed, the next serial id, and whether
the current transaction has been aborted by a failed statement. -/
structure DBConn where
  committed : List Entry
  pending : List Entry
  nextId : Nat
  aborted : Bool
deriving DecidableEq, Repr

/-- The errors psycopg2 raises to the caller of execute for INSERT_ENTRY
under DB_SCHEMA: a NOT NULL violation, a value too long for VARCHAR (127),
or any statement attempted inside an already-aborted transaction. -/
inductive DBError where
  | nullViolation
  | valueTooLong
  | inFailedTransaction
deriving DecidableEq, Repr

/-- Model of the external engine executing
INSERT INTO entries (title, text, created) VALUES (%s, %s, %s):
a statement in an aborted transaction fails; a NULL title or text, or a
title longer than the VARCHAR (127) column, raises and leaves the
transaction aborted; otherwise the new row joins the transaction's
pending writes and takes the next serial id. -/
def executeInsert (db : DBConn) (title : Option String) (text : Option String)
    (created : Nat) : DBConn × Option DBError :=
  if db.aborted then
    (db, some DBError.inFailedTransaction)
  else
    match title, text with
    | some t, some x =>
      if t.length ≤ 127 then
        (DBConn.mk db.committed (db.pending ++ [Entry.mk db.nextId t x created])
          (db.nextId + 1) db.aborted, none)
      else
        (DBConn.mk db.committed db.pending db.nextId true, some DBError.valueTooLong)
    | _, _ =>
        (DBConn.mk db.committed db.pending db.nextId true, some DBError.nullViolation)

/-- Model of connection.commit(): PostgreSQL makes the pending writes
durable, except that committing an aborted transaction discards them
(the server turns the COMMIT of a failed transaction into a rollback). -/
def commit (db : DBConn) : DBConn :=
  if db.aborted then
    DBConn.mk db.committed [] db.nextId false
  else
    DBConn.mk (db.committed ++ db.pending) [] db.nextId false

/-- Model of connection.rollback(): the pending writes are discarded. -/
def rollback (db : DBConn) : DBConn :=
  DBConn.mk db.committed [] db.nextId false

/-- The comparison ORDER BY created DESC sorts by: a precedes b when
b.created ≤ a.created. Ties are broken arbitrarily by the engine. -/
def createdGE (a b : Entry) : Prop := b.created ≤ a.created

instance : DecidableRel createdGE := fun a b => Nat.decLe b.created a.created

instance : IsTotal Entry createdGE := ⟨fun a b => Nat.le_total b.created a.created⟩

instance : IsTrans Entry createdGE :=
  ⟨fun _ _ _ hab hbc => Nat.le_trans hbc hab⟩

/-- Same descending-created comparison on result rows. -/
def rowCreatedGE (a b : Row) : Prop := b.created ≤ a.created

instance : DecidableRel rowCreatedGE := fun a b => Nat.decLe b.created a.created

/-- Model of the engine executing
SELECT id, title, text, created FROM entries ORDER BY created DESC
on this connection: every stored row (the transaction sees its own
uncommitted writes), sorted by created descending. -/
def selectEntries (db : DBConn) : List Entry :=
  List.insertionSort createdGE (db.committed ++ db.pending)

/-- The projection of a table row onto the four selected columns,
as the dictionary read_entries builds. -/
def entryRow (e : Entry) : Row := Row.mk e.id e.title e.text e.created

/-- Configuration relevant to the login verifier, from the settings dict
built in main: auth.username and auth.password (a bcrypt hash). -/
structure Settings where
  authUsername : String
  authPassword : String
deriving DecidableEq, Repr

/-- The form fields a request may carry; request.params.get(key, None)
yields none when the field is absent. -/
structure Params where
  title : Option String
  text : Option String
  username : Option String
  password : Option String
deriving DecidableEq, Repr

/-- Python truthiness of an optional string: None and the empty string are
falsy, every other string is truthy. -/
def truthy : Option String → Bool
  | none => false
  | some s => s != ""

/-- write_entry from src/journal.py: reads title and text from
request.params (absent fields become None), takes created from the server
clock — datetime.datetime.utcnow(), the parameter now — and executes
INSERT_ENTRY on the request's connection. -/
def write_entry (db : DBConn) (params : Params) (now : Nat) :
    DBConn × Option DBError :=
  executeInsert db params.title params.text now

/-- The two outcomes of the add_entry view: HTTPInternalServerError when
the database raised, or HTTPFound(request.route_url(home)). -/
inductive AddResult where
  | serverError
  | redirectHome
deriving DecidableEq, Repr

/-- add_entry from src/journal.py: calls write_entry, catches any
psycopg2.Error and answers with the generic server error, otherwise
redirects to the home route. -/
def add_entry (db : DBConn) (params : Params) (now : Nat) : DBConn × AddResult :=
  match write_entry db params now with
  | (db', some _) => (db', AddResult.serverError)
  | (db', none) => (db', AddResult.redirectHome)

/-- Dispatch of a matched POST /add request. In src/journal.py the
view_config decorator on add_entry carries route_name and request_method
only — no permission argument — so pyramid invokes the view for every
principal, authenticated or not, even though main registers an
AuthTktAuthenticationPolicy and an ACLAuthorizationPolicy. -/
def dispatch_post_add (principal : Option String) (db : DBConn)
    (params : Params) (now : Nat) : DBConn × AddResult :=
  add_entry db params now

/-- The ValueError do_login raises when a credential is missing or empty. -/
inductive LoginError where
  | valueError (msg : String)
deriving DecidableEq, Repr

/-- do_login from src/journal.py. The bcrypt black box
BCRYPTPasswordManager().check(hashed, password) is the parameter check.
A missing or empty username or password raises
ValueError with the one fixed message; a username differing from
settings auth.username returns False without consulting check; a matching
username returns check of the configured hash against the password. -/
def do_login (check : String → String → Bool) (settings : Settings)
    (params : Params) : Except LoginError Bool :=
  let username := params.username
  let password := params.password
  if !(truthy username && truthy password) then
    Except.error (LoginError.valueError "both username and password are required")
  else if username.getD "" = settings.authUsername then
    Except.ok (check settings.authPassword (password.getD ""))
  else
    Except.ok false

/-- The same do_login, instrumented: alongside the result it records the
trace of invocations of the bcrypt black box check — each recorded as the
(hash, password) pair passed to it — so that runs can be compared for
which external comparisons they perform. -/
def do_login_trace (check : String → String → Bool) (settings : Settings)
    (params : Params) : Except LoginError Bool × List (String × String) :=
  let username := params.username
  let password := params.password
  if !(truthy username && truthy password) then
    (Except.error (LoginError.valueError "both username and password are required"), [])
  else if username.getD "" = settings.authUsername then
    (Except.ok (check settings.authPassword (password.getD "")),
      [(settings.authPassword, password.getD "")])
  else
    (Except.ok false, [])

/-- Headers issued by pyramid.security.remember and forget. Model of the
external auth-ticket session layer, per the session contract the source
relies on: remember asserts a principal, forget clears the assertion. -/
inductive SessionHeaders where
  | setAuth (principal : String)
  | clearAuth
deriving DecidableEq, Repr

/-- pyramid.security.remember(request, principal). -/
def remember (principal : String) : SessionHeaders := SessionHeaders.setAuth principal

/-- pyramid.security.forget(request). -/
def forget : SessionHeaders := SessionHeaders.clearAuth

/-- A client cookie as the auth-ticket policy reads it: the principal
claim it validly carries, or none when absent, tampered or expired. -/
abbrev Cookie := Option String

/-- Effect of response headers on the client's cookie: setAuth makes the
cookie carry that principal, clearAuth erases the assertion. -/
def apply_headers (c : Cookie) (h : SessionHeaders) : Cookie :=
  match h with
  | SessionHeaders.setAuth p => some p
  | SessionHeaders.clearAuth => none

/-- The authenticated principal the auth-ticket policy derives from a
cookie: the valid claim, if any. -/
def current_principal (c : Cookie) : Option String := c

/-- The outcomes of the login view: HTTPFound with session headers, or the
rendered login template model dict with its error and username fields. -/
inductive LoginResult where
  | redirect (location : String) (headers : SessionHeaders)
  | render (error : String) (username : String)
deriving DecidableEq, Repr

/-- login from src/journal.py: on POST the error starts as Login Failed,
do_login runs, a ValueError replaces the error with str(e), an
authenticated result redirects home with remember(request, username)
headers, anything else renders the template with the error and the
submitted username echoed back. On GET it renders with an empty error. -/
def login (check : String → String → Bool) (settings : Settings)
    (method : String) (params : Params) : LoginResult :=
  let username := params.username.getD ""
  if method = "POST" then
    match do_login check settings params with
    | Except.error (LoginError.valueError msg) => LoginResult.render msg username
    | Except.ok true => LoginResult.redirect "/" (remember username)
    | Except.ok false => LoginResult.render "Login Failed" username
  else
    LoginResult.render "" username

/-- logout from src/journal.py: redirects to the home route with
forget(request) headers. -/
def logout : String × SessionHeaders := ("/", forget)

/-- read_entries from src/journal.py: executes SELECT_ENTRIES and returns
one dictionary per fetched row, keyed id, title, text, created. -/
def read_entries (db : DBConn) : List Row :=
  (selectEntries db).map entryRow

/-- The calls close_connection can make on the request's connection. -/
inductive DBAction where
  | commit
  | rollback
  | close
deriving DecidableEq, Repr

/-- The request attributes close_connection consults, plus the HTTP status
of the response (which the source never reads): db is the connection
open_connection attached, if any; exception is request.exception, the
unhandled error of request processing, if any. -/
structure Request where
  db : Option DBConn
  exception : Option String
  status : Nat
deriving DecidableEq, Repr

/-- close_connection from src/journal.py: getattr(request, db, None); when
a connection exists, roll back if request.exception is not None, commit
otherwise, then close. Returns the final connection state and the calls
made, in order. -/
def close_connection (request : Request) : Option DBConn × List DBAction :=
  match request.db with
  | none => (none, [])
  | some d =>
    if request.exception.isSome then
      (some (rollback d), [DBAction.rollback, DBAction.close])
    else
      (some (commit d), [DBAction.commit, DBAction.close])

/-! Theorems. -/

/-- Helper: membership survives read_entries. -/
theorem mem_read_entries (db : DBConn) (e : Entry)
    (h : e ∈ db.committed ++ db.pending) : entryRow e ∈ read_entries db := by
  unfold read_entries selectEntries
  exact List.mem_map_of_mem entryRow ((List.mem_insertionSort createdGE).mpr h)

/-- C7: read_entries returns one row per stored entry, projected onto
id, title, text, created, ordered by created descending; an empty store
yields the empty list; three entries at times t1 < t2 < t3 come back in
the order [t3, t2, t1]. -/
theorem read_entries_spec (db : DBConn) (e1 e2 e3 : Entry) (n : Nat)
    (h12 : e1.created < e2.created) (h23 : e2.created < e3.created) :
    List.Perm (read_entries db) (List.map entryRow (db.committed ++ db.pending)) ∧
    List.Sorted rowCreatedGE (read_entries db) ∧
    (db.committed = [] ∧ db.pending = [] → read_entries db = []) ∧
    read_entries (DBConn.mk [e1, e2, e3] [] n false) =
      [entryRow e3, entryRow e2, entryRow e1] := by
  refine ⟨?_, ?_, ?_, ?_⟩
  · exact (List.perm_insertionSort createdGE (db.committed ++ db.pending)).map entryRow
  · unfold read_entries selectEntries
    exact List.Pairwise.map entryRow (fun a b hab => hab)
      (List.sorted_insertionSort createdGE (db.committed ++ db.pending))
  · rintro ⟨h1, h2⟩
    simp [read_entries, selectEntries, h1, h2]
  · have n23 : ¬ createdGE e2 e3 := by
      unfold createdGE; omega
    have n13 : ¬ createdGE e1 e3 := by
      unfold createdGE; omega
    have n12 : ¬ createdGE e1 e2 := by
      unfold createdGE; omega
    simp [read_entries, selectEntries, List.insertionSort, List.orderedInsert,
      n23, n13, n12]

/-- C7 witness at a concrete store and concrete entries. -/
theorem read_entries_spec_witness :
    (Entry.mk 1 "a" "x" 10).created < (Entry.mk 2 "b" "y" 20).created ∧
    (Entry.mk 2 "b" "y" 20).created < (Entry.mk 3 "c" "z" 30).created ∧
    read_entries (DBConn.mk [Entry.mk 1 "a" "x" 10, Entry.mk 2 "b" "y" 20,
        Entry.mk 3 "c" "z" 30] [] 4 false) =
      [entryRow (Entry.mk 3 "c" "z" 30), entryRow (Entry.mk 2 "b" "y" 20),
        entryRow (Entry.mk 1 "a" "x" 10)] :=
  ⟨by decide, by decide,
    (read_entries_spec (DBConn.mk [] [] 1 false) (Entry.mk 1 "a" "x" 10)
      (Entry.mk 2 "b" "y" 20) (Entry.mk 3 "c" "z" 30) 4
      (by decide) (by decide)).2.2.2⟩

/-- C6: inserting a valid (title, text) — title at most 127 characters,
both fields present and non-empty — succeeds, and read_entries on the
resulting connection contains a row with exactly those values whose
created timestamp is the server clock at insertion, hence at least any
instant t0 preceding the insertion. -/
theorem insert_then_list_contains_entry (db : DBConn) (title text : String)
    (t0 now : Nat) (hab : db.aborted = false) (hlen : title.length ≤ 127)
    (htne : title ≠ "") (hxne : text ≠ "") (htime : t0 ≤ now) :
    (write_entry db (Params.mk (some title) (some text) none none) now).2 = none ∧
    ∃ r ∈ read_entries
        (write_entry db (Params.mk (some title) (some text) none none) now).1,
      r.title = title ∧ r.text = text ∧ r.created = now ∧ t0 ≤ r.created := by
  have hw : write_entry db (Params.mk (some title) (some text) none none) now =
      (DBConn.mk db.committed (db.pending ++ [Entry.mk db.nextId title text now])
        (db.nextId + 1) db.aborted, none) := by
    simp [write_entry, executeInsert, hab, hlen]
  rw [hw]
  refine ⟨rfl, entryRow (Entry.mk db.nextId title text now), ?_, rfl, rfl, rfl, htime⟩
  exact mem_read_entries _ _ (by simp)

/-- C6 witness at a concrete store and concrete field values. -/
theorem insert_then_list_contains_entry_witness :
    (DBConn.mk [] [] 1 false).aborted = false ∧
    ("Day 1").length ≤ 127 ∧ "Day 1" ≠ "" ∧ "Learned X" ≠ "" ∧ (3 : Nat) ≤ 5 ∧
    ((write_entry (DBConn.mk [] [] 1 false)
        (Params.mk (some "Day 1") (some "Learned X") none none) 5).2 = none ∧
      ∃ r ∈ read_entries (write_entry (DBConn.mk [] [] 1 false)
          (Params.mk (some "Day 1") (some "Learned X") none none) 5).1,
        r.title = "Day 1" ∧ r.text = "Learned X" ∧ r.created = 5 ∧ 3 ≤ r.created) :=
  ⟨rfl, by decide, by decide, by decide, by decide,
    insert_then_list_contains_entry (DBConn.mk [] [] 1 false) "Day 1" "Learned X"
      3 5 rfl (by decide) (by decide) (by decide) (by decide)⟩

/-- Helper: whenever executeInsert raises, committing the resulting
connection state leaves the durable table exactly as it was and carries
no pending write into it. -/
theorem executeInsert_error_commit_unchanged (db : DBConn)
    (t x : Option String) (c : Nat)
    (herr : (executeInsert db t x c).2 ≠ none) :
    (commit (executeInsert db t x c).1).committed = db.committed ∧
    (commit (executeInsert db t x c).1).pending = [] := by
  cases hab : db.aborted with
  | true => simp [executeInsert, hab, commit]
  | false =>
    cases t with
    | none => simp [executeInsert, hab, commit]
    | some tv =>
      cases x with
      | none => simp [executeInsert, hab, commit]
      | some xv =>
        by_cases hlen : tv.length ≤ 127
        · exfalso
          exact herr (by simp [executeInsert, hab, hlen])
        · simp [executeInsert, hab, hlen, commit]

/-- C2: when the insert of a POST /add raises a storage error, add_entry
catches it at the handler boundary and answers with the generic server
error; the request then finishes with no unhandled exception, so
close_connection runs its commit branch — and because the failed
statement aborted the transaction, the engine discards the transaction's
writes: the durable store is exactly what it was before the request, the
failed insert left nothing behind. -/
theorem add_entry_storage_error_spec (db : DBConn) (params : Params)
    (now : Nat) (s : Nat)
    (herr : (write_entry db params now).2 ≠ none) :
    (add_entry db params now).2 = AddResult.serverError ∧
    (close_connection (Request.mk (some (add_entry db params now).1) none s)).1 =
      some (commit (add_entry db params now).1) ∧
    (commit (add_entry db params now).1).committed = db.committed ∧
    (commit (add_entry db params now).1).pending = [] := by
  have hun := executeInsert_error_commit_unchanged db params.title params.text now herr
  rcases hw : write_entry db params now with ⟨db', err⟩
  cases err with
  | none => rw [hw] at herr; exact absurd rfl herr
  | some e =>
    have ha : add_entry db params now = (db', AddResult.serverError) := by
      simp [add_entry, hw]
    rw [write_entry] at hw
    rw [hw] at hun
    rw [ha]
    exact ⟨rfl, by simp [close_connection], hun.1, hun.2⟩

/-- C2 witness: a concrete insert with the title field absent raises the
NOT NULL violation, the handler serves the generic error, and the store
is unchanged. -/
theorem add_entry_storage_error_spec_witness :
    (write_entry (DBConn.mk [Entry.mk 1 "old" "kept" 2] [] 2 false)
        (Params.mk none (some "b") none none)
        7).2 ≠ none ∧
    ((add_entry (DBConn.mk [Entry.mk 1 "old" "kept" 2] [] 2 false)
        (Params.mk none (some "b") none none)
        7).2 = AddResult.serverError ∧
      (close_connection (Request.mk (some (add_entry
          (DBConn.mk [Entry.mk 1 "old" "kept" 2] [] 2 false)
          (Params.mk none (some "b") none none)
          7).1) none 500)).1 =
        some (commit (add_entry (DBConn.mk [Entry.mk 1 "old" "kept" 2] [] 2 false)
          (Params.mk none (some "b") none none)
          7).1) ∧
      (commit (add_entry (DBConn.mk [Entry.mk 1 "old" "kept" 2] [] 2 false)
          (Params.mk none (some "b") none none)
          7).1).committed = (DBConn.mk [Entry.mk 1 "old" "kept" 2] [] 2 false).committed ∧
      (commit (add_entry (DBConn.mk [Entry.mk 1 "old" "kept" 2] [] 2 false)
          (Params.mk none (some "b") none none)
          7).1).pending = []) :=
  ⟨by decide, add_entry_storage_error_spec
    (DBConn.mk [Entry.mk 1 "old" "kept" 2] [] 2 false)
    (Params.mk none (some "b") none none)
    7 500 (by decide)⟩

/-- C8: for a request that opened a connection, close_connection rolls the
transaction back exactly when an unhandled error occurred, commits it
otherwise, closes the connection on both paths, and never consults the
HTTP status of the response. -/
theorem close_connection_commit_rollback_spec (r : Request) (d : DBConn)
    (h : r.db = some d) :
    (DBAction.rollback ∈ (close_connection r).2 ↔ r.exception.isSome = true) ∧
    (DBAction.commit ∈ (close_connection r).2 ↔ r.exception = none) ∧
    DBAction.close ∈ (close_connection r).2 ∧
    (∀ s, close_connection (Request.mk r.db r.exception s) = close_connection r) := by
  rcases r with ⟨rdb, rexc, rstatus⟩
  simp only at h
  subst h
  cases rexc <;> simp [close_connection]

/-- C8 witness at a concrete request with a connection and no error. -/
theorem close_connection_commit_rollback_spec_witness :
    (Request.mk (some (DBConn.mk [] [] 1 false)) none 200).db =
      some (DBConn.mk [] [] 1 false) ∧
    ((DBAction.rollback ∈ (close_connection
        (Request.mk (some (DBConn.mk [] [] 1 false)) none 200)).2 ↔
      (Request.mk (some (DBConn.mk [] [] 1 false)) none 200).exception.isSome = true) ∧
    (DBAction.commit ∈ (close_connection
        (Request.mk (some (DBConn.mk [] [] 1 false)) none 200)).2 ↔
      (Request.mk (some (DBConn.mk [] [] 1 false)) none 200).exception = none) ∧
    DBAction.close ∈ (close_connection
        (Request.mk (some (DBConn.mk [] [] 1 false)) none 200)).2 ∧
    (∀ s, close_connection (Request.mk
        (Request.mk (some (DBConn.mk [] [] 1 false)) none 200).db
        (Request.mk (some (DBConn.mk [] [] 1 false)) none 200).exception s) =
      close_connection (Request.mk (some (DBConn.mk [] [] 1 false)) none 200))) :=
  ⟨rfl, close_connection_commit_rollback_spec
    (Request.mk (some (DBConn.mk [] [] 1 false)) none 200)
    (DBConn.mk [] [] 1 false) rfl⟩

/-- C10: close_connection returns normally on a request with no db
attribute — it performs no commit, no rollback and no close — and, on any
request at all, it touches the connection only when one was opened. -/
theorem close_connection_no_db_safe (r : Request) (h : r.db = none) :
    close_connection r = (none, []) ∧
    (∀ q : Request, (DBAction.commit ∈ (close_connection q).2 ∨
        DBAction.rollback ∈ (close_connection q).2 ∨
        DBAction.close ∈ (close_connection q).2) → q.db.isSome = true) := by
  constructor
  · simp [close_connection, h]
  · intro q hq
    rcases q with ⟨qdb, qexc, qstatus⟩
    cases qdb with
    | none => simp [close_connection] at hq
    | some d => rfl

/-- C10 witness at a concrete request without a connection. -/
theorem close_connection_no_db_safe_witness :
    (Request.mk none (some "boom") 500).db = none ∧
    (close_connection (Request.mk none (some "boom") 500) = (none, []) ∧
      (∀ q : Request, (DBAction.commit ∈ (close_connection q).2 ∨
          DBAction.rollback ∈ (close_connection q).2 ∨
          DBAction.close ∈ (close_connection q).2) → q.db.isSome = true)) :=
  ⟨rfl, close_connection_no_db_safe (Request.mk none (some "boom") 500) rfl⟩

/-- C1: the code does not guard POST /add. A request carrying no
authenticated principal (current_principal none — no valid cookie) whose
dispatch reaches the add route with valid fields gets its entry inserted
and committed, and is answered with the redirect home: nothing in
add_entry or its view registration requires a principal. -/
theorem add_entry_unauthenticated_insert :
    current_principal (none : Cookie) = none ∧
    dispatch_post_add none (DBConn.mk [] [] 1 false)
        (Params.mk (some "Day 1") (some "Learned X") none none) 5 =
      (DBConn.mk [] [Entry.mk 1 "Day 1" "Learned X" 5] 2 false,
        AddResult.redirectHome) ∧
    (commit (dispatch_post_add none (DBConn.mk [] [] 1 false)
        (Params.mk (some "Day 1") (some "Learned X") none none) 5).1).committed =
      [Entry.mk 1 "Day 1" "Learned X" 5] := by
  refine ⟨rfl, ?_, ?_⟩ <;> decide

/-- C3 counterexample: on POST /login with an empty username and a
non-empty password, the handler renders the ValueError text from
do_login, which is not the Login Failed message the claim requires. -/
theorem login_empty_username_renders_value_error :
    login (fun _ _ => false) (Settings.mk "admin" "HASH") "POST"
        (Params.mk none none (some "") (some "x")) =
      LoginResult.render "both username and password are required" "" ∧
    "both username and password are required" ≠ "Login Failed" := by
  refine ⟨?_, ?_⟩ <;> decide

/-- C3 amended: whenever the username or the password of a POST /login is
missing or empty — empty username, empty password, or both — do_login
fails with the very same ValueError, one kind and one message, and the
handler renders that same generic message (not the Login Failed text,
which is reserved for wrong non-empty credentials); no rendering ever
reveals which credential was at fault. -/
theorem login_empty_fields_uniform_error (check : String → String → Bool)
    (settings : Settings) (params : Params)
    (h : truthy params.username = false ∨ truthy params.password = false) :
    do_login check settings params =
      Except.error (LoginError.valueError "both username and password are required") ∧
    login check settings "POST" params =
      LoginResult.render "both username and password are required"
        (params.username.getD "") := by
  have hd : do_login check settings params =
      Except.error (LoginError.valueError "both username and password are required") := by
    rcases h with h | h <;> simp [do_login, h]
  exact ⟨hd, by simp [login, hd]⟩

/-- C3 amended witness: the three concrete empty-credential shapes all
produce the identical error and the identical rendering. -/
theorem login_empty_fields_uniform_error_witness :
    truthy (some "") = false ∧
    (do_login (fun _ _ => false) (Settings.mk "admin" "HASH")
        (Params.mk none none (some "") (some "")) =
      Except.error (LoginError.valueError "both username and password are required") ∧
    login (fun _ _ => false) (Settings.mk "admin" "HASH") "POST"
        (Params.mk none none (some "") (some "")) =
      LoginResult.render "both username and password are required" "") :=
  ⟨by decide, login_empty_fields_uniform_error (fun _ _ => false)
    (Settings.mk "admin" "HASH") (Params.mk none none (some "") (some ""))
    (Or.inl (by decide))⟩

/-- C4: with both credentials non-empty, do_login returns False when the
username differs from the configured admin username, and otherwise
returns exactly what the bcrypt check of the configured hash against the
submitted password returns — true on the correct password, false on any
other. -/
theorem do_login_credentials_spec (check : String → String → Bool)
    (settings : Settings) (u p : String) (hu : u ≠ "") (hp : p ≠ "") :
    do_login check settings (Params.mk none none (some u) (some p)) =
      Except.ok (if u = settings.authUsername
        then check settings.authPassword p else false) := by
  by_cases hadm : u = settings.authUsername
  · have hu2 : settings.authUsername ≠ "" := hadm ▸ hu
    simp [do_login, truthy, hp, hadm, hu2]
  · simp [do_login, truthy, hu, hp, hadm]

/-- C4 witness: the admin username with a password accepted by the check
yields true. -/
theorem do_login_credentials_spec_witness :
    "admin" ≠ "" ∧ "secret" ≠ "" ∧
    do_login (fun _ p => p == "secret") (Settings.mk "admin" "HASH")
        (Params.mk none none (some "admin") (some "secret")) =
      Except.ok (if "admin" = (Settings.mk "admin" "HASH").authUsername
        then (fun _ p => p == "secret") (Settings.mk "admin" "HASH").authPassword "secret"
        else false) :=
  ⟨by decide, by decide, do_login_credentials_spec (fun _ p => p == "secret")
    (Settings.mk "admin" "HASH") "admin" "secret" (by decide) (by decide)⟩

/-- C5: the verifier's false paths are distinguishable. With non-empty
inputs, a wrong username ("nobody" against admin) returns False after
zero invocations of the bcrypt check, while a wrong password for the
right username returns False after one invocation — different code path,
hence different externally observable work — even though both results are
the same boolean. -/
theorem do_login_code_path_leak :
    (do_login_trace (fun _ _ => false) (Settings.mk "admin" "HASH")
        (Params.mk none none (some "nobody") (some "pw"))).1 = Except.ok false ∧
    (do_login_trace (fun _ _ => false) (Settings.mk "admin" "HASH")
        (Params.mk none none (some "admin") (some "pw"))).1 = Except.ok false ∧
    (do_login_trace (fun _ _ => false) (Settings.mk "admin" "HASH")
        (Params.mk none none (some "nobody") (some "pw"))).2 = [] ∧
    (do_login_trace (fun _ _ => false) (Settings.mk "admin" "HASH")
        (Params.mk none none (some "admin") (some "pw"))).2 = [("HASH", "pw")] ∧
    (do_login_trace (fun _ _ => false) (Settings.mk "admin" "HASH")
        (Params.mk none none (some "nobody") (some "pw"))).2 ≠
      (do_login_trace (fun _ _ => false) (Settings.mk "admin" "HASH")
        (Params.mk none none (some "admin") (some "pw"))).2 := by
  refine ⟨rfl, rfl, ?_, ?_, ?_⟩ <;> decide

/-- C9: a POST /login with the admin username and a password the bcrypt
check accepts redirects home with remember headers for the submitted
username; applying those headers makes current_principal return admin;
the logout view then issues forget headers, after which current_principal
returns none — the unauthenticated state is restored. -/
theorem login_logout_principal_roundtrip (check : String → String → Bool)
    (settings : Settings) (pw : String) (c : Cookie)
    (hadmin : settings.authUsername = "admin") (hpw : pw ≠ "")
    (hcheck : check settings.authPassword pw = true) :
    login check settings "POST" (Params.mk none none (some "admin") (some pw)) =
      LoginResult.redirect "/" (remember "admin") ∧
    current_principal (apply_headers c (remember "admin")) = some "admin" ∧
    logout = ("/", forget) ∧
    current_principal
        (apply_headers (apply_headers c (remember "admin")) forget) = none := by
  have hd : do_login check settings (Params.mk none none (some "admin") (some pw)) =
      Except.ok true := by
    simp [do_login, truthy, hpw, hadmin, hcheck]
  exact ⟨by simp [login, hd, remember], rfl, rfl, rfl⟩

/-- C9 witness at concrete credentials, check function and cookie. -/
theorem login_logout_principal_roundtrip_witness :
    (Settings.mk "admin" "HASH").authUsername = "admin" ∧ "secret" ≠ "" ∧
    (fun _ p => p == "secret") (Settings.mk "admin" "HASH").authPassword "secret" = true ∧
    (login (fun _ p => p == "secret") (Settings.mk "admin" "HASH") "POST"
        (Params.mk none none (some "admin") (some "secret")) =
      LoginResult.redirect "/" (remember "admin") ∧
    current_principal (apply_headers (none : Cookie) (remember "admin")) = some "admin" ∧
    logout = ("/", forget) ∧
    current_principal
        (apply_headers (apply_headers (none : Cookie) (remember "admin")) forget) = none) :=
  ⟨rfl, by decide, by decide, login_logout_principal_roundtrip
    (fun _ p => p == "secret") (Settings.mk "admin" "HASH") "secret" none
    rfl (by decide) (by decide)⟩

end PyramidLearningJournal
